import Mathlib

/-!
Verification development for the nomad driver harness in `main.go`
(package `main`, the variant with `DriverHarness`, `MkAllocDir` and
`SetEnvvars`).

The Go code is embedded shallowly:
* `taskenv.Builder` becomes the record `Builder`; its setter methods are
  plain record updates.  The host-environment read (`os.Environ()`) is an
  explicit parameter.
* `drivers.FSIsolation` becomes the three-constructor inductive
  `FSIsolation` (none, chroot, image).
* `MkAllocDir` becomes a function from an explicit world of I/O outcomes
  (which stage fails, the temp-dir name, the platform, the generated uuid)
  to a result record carrying the mutated `TaskConfig`, the disk state,
  the trace of filesystem actions performed, the `logmon.LogConfig` the
  log monitor was started with, and either an error or the cleanup
  action list the returned closure would perform.
* the harness `main` becomes a trace function over a world of RPC
  outcomes; `log.Fatal` terminates the process immediately, so on that
  path no deferred function runs and the trace simply ends.
-/

set_option autoImplicit false

/-- An environment mapping, as the Go code's `map[string]string` /
`os.Environ()` slices: an association list of (name, value) pairs. -/
abbrev EnvMap : Type := List (String × String)

/-- First-match lookup in an association list (Go map lookup `m[k]`). -/
def lookupKV : EnvMap → String → Option String
  | [], _ => Option.none
  | kv :: rest, k => if kv.1 = k then Option.some kv.2 else lookupKV rest k

/-- Left-biased choice on options (used to state caller-precedence of
environment values). -/
def optOr (a b : Option String) : Option String :=
  match a with
  | Option.some v => Option.some v
  | Option.none => b

/-- `drivers.FSIsolation`: the three filesystem isolation modes the
driver can require (`FSIsolationNone`, `FSIsolationChroot`,
`FSIsolationImage`). -/
inductive FSIsolation where
  | none
  | chroot
  | image
  deriving DecidableEq, Repr

/-- Container-canonical path of the shared alloc dir
(`allocdir.SharedAllocContainerPath`). -/
def SharedAllocContainerPath : String := "/alloc"

/-- Container-canonical path of the task-local dir
(`allocdir.TaskLocalContainerPath`). -/
def TaskLocalContainerPath : String := "/local"

/-- Container-canonical path of the secrets dir
(`allocdir.TaskSecretsContainerPath`). -/
def TaskSecretsContainerPath : String := "/secrets"

/-- `allocdir.TaskDir`: the host paths of one task's directory view. -/
structure TaskDir where
  Dir : String
  SharedAllocDir : String
  LocalDir : String
  SecretsDir : String
  LogDir : String
  deriving DecidableEq, Repr

/-- `allocDir.NewTaskDir(taskName)`: derives the per-task directory view
from the allocation root (path formulas as in `client/allocdir`). -/
def NewTaskDir (allocRoot taskName : String) : TaskDir :=
  { Dir := allocRoot ++ "/" ++ taskName
    SharedAllocDir := allocRoot ++ "/alloc"
    LocalDir := allocRoot ++ "/" ++ taskName ++ "/local"
    SecretsDir := allocRoot ++ "/" ++ taskName ++ "/secrets"
    LogDir := allocRoot ++ "/alloc/logs" }

/-- `taskenv.Builder`: the slice of the builder's state our calls touch.
Modelled from the spec: the library type records the client paths, the
task-visible paths and the filtered host environment; a fresh builder
(`taskenv.NewBuilder`) starts with nothing recorded. -/
structure Builder where
  clientTaskRoot : Option String := Option.none
  clientSharedAllocDir : Option String := Option.none
  clientTaskLocalDir : Option String := Option.none
  clientTaskSecretsDir : Option String := Option.none
  allocDir : Option String := Option.none
  taskLocalDir : Option String := Option.none
  secretsDir : Option String := Option.none
  hostEnv : EnvMap := []
  deriving DecidableEq, Repr

/-- A fresh builder, as produced by `taskenv.NewBuilder`. -/
def Builder.new : Builder := {}

def Builder.SetClientTaskRoot (b : Builder) (p : String) : Builder :=
  { b with clientTaskRoot := Option.some p }

def Builder.SetClientSharedAllocDir (b : Builder) (p : String) : Builder :=
  { b with clientSharedAllocDir := Option.some p }

def Builder.SetClientTaskLocalDir (b : Builder) (p : String) : Builder :=
  { b with clientTaskLocalDir := Option.some p }

def Builder.SetClientTaskSecretsDir (b : Builder) (p : String) : Builder :=
  { b with clientTaskSecretsDir := Option.some p }

def Builder.SetAllocDir (b : Builder) (p : String) : Builder :=
  { b with allocDir := Option.some p }

def Builder.SetTaskLocalDir (b : Builder) (p : String) : Builder :=
  { b with taskLocalDir := Option.some p }

def Builder.SetSecretsDir (b : Builder) (p : String) : Builder :=
  { b with secretsDir := Option.some p }

/-- `Builder.SetHostEnvvars(filter)`.  Modelled from the spec: copies the
current host environment into the builder, excluding any variable whose
name matches the denylist (case-sensitive exact match).  The host
environment (`os.Environ()`) is the explicit `environ` parameter. -/
def Builder.SetHostEnvvars (b : Builder) (filter : List String) (environ : EnvMap) : Builder :=
  { b with hostEnv := List.filter (fun kv => decide (¬ kv.1 ∈ filter)) environ }

/-- The entries the built environment derives from the task-visible
paths.  Modelled from the spec: `NOMAD_ALLOC_DIR`-equivalent keys bound
to the recorded alloc/local/secrets paths. -/
def Builder.pathVars (b : Builder) : EnvMap :=
  (match b.allocDir with
   | Option.some p => [("NOMAD_ALLOC_DIR", p)]
   | Option.none => []) ++
  (match b.taskLocalDir with
   | Option.some p => [("NOMAD_TASK_DIR", p)]
   | Option.none => []) ++
  (match b.secretsDir with
   | Option.some p => [("NOMAD_SECRETS_DIR", p)]
   | Option.none => [])

/-- `Builder.Build()`.  Modelled from the spec: the final mapping is the
path-derived variables plus the filtered copy of the host environment. -/
def Builder.Build (b : Builder) : EnvMap :=
  b.pathVars ++ b.hostEnv

/-- The slice of `client/config.Config` that `SetEnvvars` reads: the
resolved environment-variable denylist (comma-separated). -/
structure Config where
  envDenylist : String
  deriving DecidableEq, Repr

/-- `conf.ReadAlternativeDefault(["env.denylist", "env.blacklist"],
config.DefaultEnvDenylist)`: returns the configured denylist string,
which for `config.DefaultConfig()` is `DefaultEnvDenylist`. -/
def Config.ReadAlternativeDefault (c : Config) : String :=
  c.envDenylist

/-- `config.DefaultEnvDenylist` (comma-separated variable names). -/
def DefaultEnvDenylist : String :=
  "CONSUL_TOKEN,CONSUL_HTTP_TOKEN,VAULT_TOKEN,AWS_ACCESS_KEY_ID,AWS_SECRET_ACCESS_KEY,AWS_SESSION_TOKEN,GOOGLE_APPLICATION_CREDENTIALS"

/-- `config.DefaultConfig()`, restricted to the field we read. -/
def DefaultConfig : Config :=
  { envDenylist := DefaultEnvDenylist }

/-- Splitting a character list at commas, accumulating the current
field in reverse (helper for `splitComma`). -/
def splitCommaChars : List Char → List Char → List String
  | [], acc => [String.mk acc.reverse]
  | c :: rest, acc =>
      if c = ',' then String.mk acc.reverse :: splitCommaChars rest []
      else splitCommaChars rest (c :: acc)

/-- Go's `strings.Split(s, ",")`. -/
def splitComma (s : String) : List String :=
  splitCommaChars s.data []

/-- The denylist as `SetEnvvars` computes it:
`strings.Split(conf.ReadAlternativeDefault(...), ",")`. -/
def denylistOf (conf : Config) : List String :=
  splitComma (Config.ReadAlternativeDefault conf)

/-- `SetEnvvars` (main.go): sets path and host env vars depending on the
FS isolation used.  Mirrors the Go function line for line; the host
environment is passed explicitly. -/
def SetEnvvars (envBuilder : Builder) (fsi : FSIsolation) (taskDir : TaskDir)
    (conf : Config) (environ : EnvMap) : Builder :=
  let b := envBuilder.SetClientTaskRoot taskDir.Dir
  let b := b.SetClientSharedAllocDir taskDir.SharedAllocDir
  let b := b.SetClientTaskLocalDir taskDir.LocalDir
  let b := b.SetClientTaskSecretsDir taskDir.SecretsDir
  let b :=
    match fsi with
    | FSIsolation.none =>
        ((b.SetAllocDir taskDir.SharedAllocDir).SetTaskLocalDir
          taskDir.LocalDir).SetSecretsDir taskDir.SecretsDir
    | _ =>
        ((b.SetAllocDir SharedAllocContainerPath).SetTaskLocalDir
          TaskLocalContainerPath).SetSecretsDir TaskSecretsContainerPath
  if fsi ≠ FSIsolation.image then
    b.SetHostEnvvars (denylistOf conf) environ
  else
    b

/-- One step of the Go loop `for k, v := range taskEnv.Map() { if _, ok :=
t.Env[k]; !ok { t.Env[k] = v } }`: insert the pair only when its key is
absent. -/
def insertMissing (acc : EnvMap) (kv : String × String) : EnvMap :=
  if (lookupKV acc kv.1).isSome then acc else acc ++ [kv]

/-- The environment-filling logic of `MkAllocDir`: `nil` caller map is
replaced by the built map; otherwise only missing keys are filled in. -/
def fillEnv (callerEnv : Option EnvMap) (built : EnvMap) : EnvMap :=
  match callerEnv with
  | Option.none => built
  | Option.some e => built.foldl insertMissing e

/-- `drivers.Resources`, restricted to the fields the harness sets
(`basicResources` in main.go). -/
structure Resources where
  NomadMemoryMB : Nat
  NomadCpuShares : Nat
  LinuxCPUShares : Nat
  LinuxMemoryLimitBytes : Nat
  deriving DecidableEq, Repr

/-- The `basicResources` literal of main.go. -/
def basicResources : Resources :=
  { NomadMemoryMB := 256
    NomadCpuShares := 250
    LinuxCPUShares := 512
    LinuxMemoryLimitBytes := 256 * 1024 * 1024 }

/-- `drivers.TaskConfig`, restricted to the fields the harness reads or
writes. -/
structure TaskConfig where
  ID : String
  Name : String
  AllocID : String
  Resources : Option Resources
  AllocDir : String
  Env : Option EnvMap
  StdoutPath : String
  StderrPath : String
  deriving DecidableEq, Repr

/-- `runtime.GOOS`, collapsed to the two cases `MkAllocDir`
distinguishes. -/
inductive GOOS where
  | windows
  | linux
  deriving DecidableEq, Repr

/-- The on-disk state the harness creates: which stages' artifacts
currently exist. -/
structure St where
  tempDirExists : Bool := false
  allocDirBuilt : Bool := false
  taskDirBuilt : Bool := false
  logmonRunning : Bool := false
  deriving DecidableEq, Repr

/-- The filesystem / session actions `MkAllocDir` and its cleanup
closure can perform. -/
inductive Act where
  | tempDirCreate
  | allocBuild
  | taskDirBuild
  | logmonStart
  | logmonStop
  | allocDestroy
  deriving DecidableEq, Repr

/-- Effect of one action on the disk state.  `allocDestroy` removes the
whole temporary tree (`allocdir.Destroy` removes the alloc root, which
is the temp dir). -/
def runAct (s : St) : Act → St
  | Act.tempDirCreate => { s with tempDirExists := true }
  | Act.allocBuild => { s with allocDirBuilt := true }
  | Act.taskDirBuild => { s with taskDirBuilt := true }
  | Act.logmonStart => { s with logmonRunning := true }
  | Act.logmonStop => { s with logmonRunning := false }
  | Act.allocDestroy =>
      { s with tempDirExists := false, allocDirBuilt := false, taskDirBuilt := false }

/-- Run a list of actions left to right. -/
def runActs (acts : List Act) (s : St) : St :=
  acts.foldl runAct s

/-- Which stage of `MkAllocDir` failed. -/
inductive MkErr where
  | tempDir
  | allocBuild
  | capabilities
  | taskDirBuild
  | logmonStart
  deriving DecidableEq, Repr

/-- The world `MkAllocDir` runs in: outcomes of its fallible calls and
the ambient values it reads (temp-dir name, driver capabilities,
platform, generated uuid, host environment). -/
structure MkWorld where
  tmpdir : String
  tempDirFails : Bool
  allocBuildFails : Bool
  capsFail : Bool
  fsi : FSIsolation
  taskDirBuildFails : Bool
  logmonStartFails : Bool
  goos : GOOS
  uuidVal : String
  hostEnviron : EnvMap
  deriving DecidableEq, Repr

/-- `logmon.LogConfig`, the fields main.go fills. -/
structure LogConfig where
  LogDir : String
  StdoutLogFile : String
  StderrLogFile : String
  StdoutFifo : String
  StderrFifo : String
  MaxFiles : Nat
  MaxFileSizeMB : Nat
  deriving DecidableEq, Repr

/-- Result of a run of `MkAllocDir`: the disk state, the trace of
actions it performed, the (in-place mutated) `TaskConfig`, the
`LogConfig` the log monitor was started with (when it was), and either
the failed stage or the action list of the returned cleanup closure. -/
structure MkResult where
  st : St
  trace : List Act
  t : TaskConfig
  logCfg : Option LogConfig
  res : Except MkErr (List Act)
  deriving Repr

/-- The task environment `MkAllocDir` builds for a task config `t` in
world `w`: a fresh builder, `SetEnvvars` with the driver's isolation
mode and the default config, then `Build`. -/
def builtTaskEnv (w : MkWorld) (t : TaskConfig) : EnvMap :=
  (SetEnvvars Builder.new w.fsi (NewTaskDir w.tmpdir t.Name) DefaultConfig w.hostEnviron).Build

/-- `(h *DriverHarness) MkAllocDir(t, enableLogs)` of main.go, stage for
stage.  Each fallible call's outcome comes from `w`; on error the Go
function returns `nil, err` at once — no action already performed is
undone, and the mutations to `t` made so far remain (it is a pointer). -/
def MkAllocDir (w : MkWorld) (t : TaskConfig) (enableLogs : Bool) : MkResult :=
  if w.tempDirFails then
    { st := {}, trace := [], t := t, logCfg := Option.none, res := Except.error MkErr.tempDir }
  else
    let st := runAct {} Act.tempDirCreate
    let tr := [Act.tempDirCreate]
    let t := { t with AllocDir := w.tmpdir }
    if w.allocBuildFails then
      { st := st, trace := tr, t := t, logCfg := Option.none, res := Except.error MkErr.allocBuild }
    else
      let st := runAct st Act.allocBuild
      let tr := tr ++ [Act.allocBuild]
      let taskDir := NewTaskDir w.tmpdir t.Name
      if w.capsFail then
        { st := st, trace := tr, t := t, logCfg := Option.none,
          res := Except.error MkErr.capabilities }
      else
        -- taskDir.Build(fsi == chroot, config.DefaultChrootEnv)
        if w.taskDirBuildFails then
          { st := st, trace := tr, t := t, logCfg := Option.none,
            res := Except.error MkErr.taskDirBuild }
        else
          let st := runAct st Act.taskDirBuild
          let tr := tr ++ [Act.taskDirBuild]
          let taskEnv := builtTaskEnv w t
          let t := { t with Env := Option.some (fillEnv t.Env taskEnv) }
          if enableLogs then
            let t :=
              if w.goos = GOOS.windows then
                { t with
                  StdoutPath := "//./pipe/" ++ t.Name ++ "-" ++ w.uuidVal.take 8 ++ ".stdout"
                  StderrPath := "//./pipe/" ++ t.Name ++ "-" ++ w.uuidVal.take 8 ++ ".stderr" }
              else
                { t with
                  StdoutPath := taskDir.LogDir ++ "/." ++ t.Name ++ ".stdout.fifo"
                  StderrPath := taskDir.LogDir ++ "/." ++ t.Name ++ ".stderr.fifo" }
            let cfg : LogConfig :=
              { LogDir := taskDir.LogDir
                StdoutLogFile := t.Name ++ ".stdout"
                StderrLogFile := t.Name ++ ".stderr"
                StdoutFifo := t.StdoutPath
                StderrFifo := t.StderrPath
                MaxFiles := 10
                MaxFileSizeMB := 10 }
            if w.logmonStartFails then
              { st := st, trace := tr, t := t, logCfg := Option.some cfg,
                res := Except.error MkErr.logmonStart }
            else
              let st := runAct st Act.logmonStart
              let tr := tr ++ [Act.logmonStart]
              { st := st, trace := tr, t := t, logCfg := Option.some cfg,
                res := Except.ok [Act.logmonStop, Act.allocDestroy] }
          else
            { st := st, trace := tr, t := t, logCfg := Option.none,
              res := Except.ok [Act.allocDestroy] }

/-- Whether a `MkAllocDir` outcome is an error (the Go `err != nil`
test in `main`). -/
def resIsError (r : Except MkErr (List Act)) : Bool :=
  match r with
  | Except.error _ => true
  | Except.ok _ => false

/-- The failed stage of a `MkAllocDir` outcome, when there is one. -/
def errStage (r : Except MkErr (List Act)) : Option MkErr :=
  match r with
  | Except.error e => Option.some e
  | Except.ok _ => Option.none

/-- The cleanup action list of a `MkAllocDir` outcome, when there is
one. -/
def cleanupActs (r : Except MkErr (List Act)) : Option (List Act) :=
  match r with
  | Except.error _ => Option.none
  | Except.ok acts => Option.some acts

/-- The world the harness `main` runs in: outcomes of each RPC-style
call, the uuids it generates, and the `MkAllocDir` world. -/
structure MainWorld where
  rpcClientFails : Bool
  dispenseFails : Bool
  setConfigFails : Bool
  mkw : MkWorld
  taskId : String
  allocId : String
  startTaskFails : Bool
  stopTaskFails : Bool
  deriving Repr

/-- Events of a run of the harness `main`: a call is recorded when it
returns successfully; `fatalExit` records `log.Fatal`, which terminates
the process at once (deferred functions do not run). -/
inductive Ev where
  | rpcConnect
  | dispense
  | setConfig
  | mkAllocDirOk
  | encodeConfig
  | startTask
  | enterObserveLoop
  | stopTaskAttempt
  | sleepAfterStop
  | runCleanup
  | clientKill
  | fatalExit
  deriving DecidableEq, Repr

/-- The `TaskConfig` literal `main` builds ("nc-demo", generated uuids,
`basicResources`). -/
def demoTask (w : MainWorld) : TaskConfig :=
  { ID := w.taskId
    Name := "nc-demo"
    AllocID := w.allocId
    Resources := Option.some basicResources
    AllocDir := ""
    Env := Option.none
    StdoutPath := ""
    StderrPath := "" }

/-- The sequence of events of a run of the harness `main`.  `log.Fatal`
exits the process, so on every error path the trace ends with
`fatalExit` and no deferred function (StopTask closure, cleanup,
`client.Kill`) ever runs.  When `StartTask` succeeds, `main` enters
`for { spew.Dump(th.State); time.Sleep(time.Second) }`; that loop has no
break, return, or cancellation, so no event follows
`enterObserveLoop`. -/
def mainTrace (w : MainWorld) : List Ev :=
  if w.rpcClientFails then [Ev.fatalExit]
  else
    Ev.rpcConnect ::
      (if w.dispenseFails then [Ev.fatalExit]
       else
         Ev.dispense ::
           (if w.setConfigFails then [Ev.fatalExit]
            else
              Ev.setConfig ::
                (if resIsError (MkAllocDir w.mkw (demoTask w) true).res then [Ev.fatalExit]
                 else
                   Ev.mkAllocDirOk :: Ev.encodeConfig ::
                     (if w.startTaskFails then [Ev.fatalExit]
                      else [Ev.startTask, Ev.enterObserveLoop]))))

/-- The loop condition of the observation loop.  The Go source is
`for { ... }`: the guard is the constant true, at every iteration. -/
def obsLoopGuard (iteration : Nat) : Bool :=
  let _ := iteration
  true

/-- What the deferred stack present when `main` enters the observation
loop would perform, were `main` ever to return: Go runs defers in LIFO
order — first the StopTask closure, then `cleanup()`, then
`client.Kill()`.  Inside the StopTask closure a failure hits
`log.Fatal`, which exits the process and skips the remaining defers. -/
def deferredTeardown (w : MainWorld) : List Ev :=
  Ev.stopTaskAttempt ::
    (if w.stopTaskFails then [Ev.fatalExit]
     else [Ev.sleepAfterStop, Ev.runCleanup, Ev.clientKill])

/-! Concrete inputs used by the per-claim witnesses and
counterexamples. -/

/-- A `MkAllocDir` world whose every stage succeeds (linux, chroot
isolation, empty host environment). -/
def mkWorldOkC6 : MkWorld :=
  { tmpdir := "/tmp/nomad_driver_harness-1", tempDirFails := false, allocBuildFails := false,
    capsFail := false, fsi := FSIsolation.chroot, taskDirBuildFails := false,
    logmonStartFails := false, goos := GOOS.linux, uuidVal := "b9188742-c786-4a2b",
    hostEnviron := [] }

/-- The demo task config, as `main` creates it, for the C6 witness. -/
def taskC6 : TaskConfig :=
  { ID := "id-c6", Name := "nc-demo", AllocID := "alloc-c6", Resources := Option.some basicResources,
    AllocDir := "", Env := Option.none, StdoutPath := "", StderrPath := "" }

/-- A world in which `Capabilities()` fails after the allocation
directory was already built. -/
def mkWorldCapsFailC3 : MkWorld :=
  { tmpdir := "/tmp/nomad_driver_harness-2", tempDirFails := false, allocBuildFails := false,
    capsFail := true, fsi := FSIsolation.none, taskDirBuildFails := false,
    logmonStartFails := false, goos := GOOS.linux, uuidVal := "b9188742-c786-4a2b",
    hostEnviron := [] }

/-- A task config for the C3 counterexample. -/
def taskC3 : TaskConfig :=
  { ID := "id-c3", Name := "nc-demo", AllocID := "alloc-c3", Resources := Option.some basicResources,
    AllocDir := "", Env := Option.none, StdoutPath := "", StderrPath := "" }

/-- An all-success `MkAllocDir` world for the C7 witness. -/
def mkWorldOkC7 : MkWorld :=
  { tmpdir := "/tmp/nomad_driver_harness-3", tempDirFails := false, allocBuildFails := false,
    capsFail := false, fsi := FSIsolation.none, taskDirBuildFails := false,
    logmonStartFails := false, goos := GOOS.linux, uuidVal := "b9188742-c786-4a2b",
    hostEnviron := [("PATH", "/bin")] }

/-- A task config whose caller already supplies a partial `Env`. -/
def taskC7 : TaskConfig :=
  { ID := "id-c7", Name := "nc-demo", AllocID := "alloc-c7", Resources := Option.some basicResources,
    AllocDir := "", Env := Option.some [("NOMAD_ALLOC_DIR", "/caller/override")],
    StdoutPath := "", StderrPath := "" }

/-- An all-success `MkAllocDir` world for the C9 witness. -/
def mkWorldOkC9 : MkWorld :=
  { tmpdir := "/tmp/nomad_driver_harness-4", tempDirFails := false, allocBuildFails := false,
    capsFail := false, fsi := FSIsolation.image, taskDirBuildFails := false,
    logmonStartFails := false, goos := GOOS.linux, uuidVal := "b9188742-c786-4a2b",
    hostEnviron := [] }

/-- A task config for the C9 witness. -/
def taskC9 : TaskConfig :=
  { ID := "id-c9", Name := "nc-demo", AllocID := "alloc-c9", Resources := Option.some basicResources,
    AllocDir := "", Env := Option.none, StdoutPath := "out", StderrPath := "err" }

/-- An all-success `MkAllocDir` world for the C10 witness. -/
def mkWorldOkC10 : MkWorld :=
  { tmpdir := "/tmp/nomad_driver_harness-5", tempDirFails := false, allocBuildFails := false,
    capsFail := false, fsi := FSIsolation.chroot, taskDirBuildFails := false,
    logmonStartFails := false, goos := GOOS.linux, uuidVal := "b9188742-c786-4a2b",
    hostEnviron := [] }

/-- A task config for the C10 witness. -/
def taskC10 : TaskConfig :=
  { ID := "id-c10", Name := "nc-demo", AllocID := "alloc-c10",
    Resources := Option.some basicResources,
    AllocDir := "", Env := Option.none, StdoutPath := "", StderrPath := "" }

/-- A main-flow world whose every call succeeds, used to exhibit the
observation loop blocking teardown. -/
def mainWorldOkC5 : MainWorld :=
  { rpcClientFails := false, dispenseFails := false, setConfigFails := false,
    mkw :=
      { tmpdir := "/tmp/nomad_driver_harness-6", tempDirFails := false, allocBuildFails := false,
        capsFail := false, fsi := FSIsolation.chroot, taskDirBuildFails := false,
        logmonStartFails := false, goos := GOOS.linux, uuidVal := "b9188742-c786-4a2b",
        hostEnviron := [] },
    taskId := "id-c5", allocId := "alloc-c5", startTaskFails := false, stopTaskFails := false }

/-- A main-flow world in which `StopTask` fails during teardown. -/
def mainWorldStopFailC4 : MainWorld :=
  { rpcClientFails := false, dispenseFails := false, setConfigFails := false,
    mkw :=
      { tmpdir := "/tmp/nomad_driver_harness-7", tempDirFails := false, allocBuildFails := false,
        capsFail := false, fsi := FSIsolation.chroot, taskDirBuildFails := false,
        logmonStartFails := false, goos := GOOS.linux, uuidVal := "b9188742-c786-4a2b",
        hostEnviron := [] },
    taskId := "id-c4", allocId := "alloc-c4", startTaskFails := false, stopTaskFails := true }

/-- A main-flow world in which `SetConfig` fails. -/
def mainWorldSetCfgFailC8 : MainWorld :=
  { rpcClientFails := false, dispenseFails := false, setConfigFails := true,
    mkw :=
      { tmpdir := "/tmp/nomad_driver_harness-8", tempDirFails := false, allocBuildFails := false,
        capsFail := false, fsi := FSIsolation.chroot, taskDirBuildFails := false,
        logmonStartFails := false, goos := GOOS.linux, uuidVal := "b9188742-c786-4a2b",
        hostEnviron := [] },
    taskId := "id-c8", allocId := "alloc-c8", startTaskFails := false, stopTaskFails := false }

/-! ## Helper lemmas -/

theorem lookupKV_append (a b : EnvMap) (k : String) :
    lookupKV (a ++ b) k = optOr (lookupKV a k) (lookupKV b k) := by
  induction a with
  | nil => simp [lookupKV, optOr]
  | cons kv rest ih =>
      by_cases h : kv.1 = k
      · simp [lookupKV, h, optOr]
      · simp [lookupKV, h, ih]

theorem mem_filterEnv (environ : EnvMap) (dl : List String) (k : String) :
    (∃ v, (k, v) ∈ List.filter (fun kv => decide (¬ kv.1 ∈ dl)) environ) ↔
      ((∃ v, (k, v) ∈ environ) ∧ ¬ k ∈ dl) := by
  constructor
  · rintro ⟨v, hv⟩
    rw [List.mem_filter] at hv
    exact ⟨⟨v, hv.1⟩, of_decide_eq_true hv.2⟩
  · rintro ⟨⟨v, hv⟩, hk⟩
    exact ⟨v, List.mem_filter.mpr ⟨hv, decide_eq_true hk⟩⟩

theorem lookupKV_foldl_insertMissing_of_some (b : EnvMap) :
    ∀ (e : EnvMap) (k : String) (v : String), lookupKV e k = Option.some v →
      lookupKV (b.foldl insertMissing e) k = Option.some v := by
  induction b with
  | nil => intro e k v h; simpa using h
  | cons kv rest ih =>
      intro e k v h
      have hstep : lookupKV (insertMissing e kv) k = Option.some v := by
        unfold insertMissing
        by_cases hs : (lookupKV e kv.1).isSome
        · simpa [hs] using h
        · rw [if_neg hs, lookupKV_append, h]
          rfl
      simpa using ih (insertMissing e kv) k v hstep

theorem lookupKV_foldl_insertMissing_of_none (b : EnvMap) :
    ∀ (e : EnvMap) (k : String), lookupKV e k = Option.none →
      lookupKV (b.foldl insertMissing e) k = lookupKV b k := by
  induction b with
  | nil => intro e k h; simpa [lookupKV] using h
  | cons kv rest ih =>
      intro e k h
      by_cases hk : kv.1 = k
      · have hsome : lookupKV (insertMissing e kv) k = Option.some kv.2 := by
          unfold insertMissing
          have hnone : lookupKV e kv.1 = Option.none := by rw [hk]; exact h
          rw [if_neg (by simp [hnone])]
          rw [lookupKV_append, h]
          simp [lookupKV, hk, optOr]
        have := lookupKV_foldl_insertMissing_of_some rest (insertMissing e kv) k kv.2 hsome
        simpa [lookupKV, hk] using this
      · have hnone : lookupKV (insertMissing e kv) k = Option.none := by
          unfold insertMissing
          by_cases hs : (lookupKV e kv.1).isSome
          · simpa [hs] using h
          · rw [if_neg hs, lookupKV_append, h]
            simp [lookupKV, hk, optOr]
        have := ih (insertMissing e kv) k hnone
        simpa [lookupKV, hk] using this

theorem lookupKV_fillEnv_some (e b : EnvMap) (k : String) :
    lookupKV (fillEnv (Option.some e) b) k = optOr (lookupKV e k) (lookupKV b k) := by
  cases h : lookupKV e k with
  | some v =>
      have := lookupKV_foldl_insertMissing_of_some b e k v h
      simp [fillEnv, this, optOr]
  | none =>
      have := lookupKV_foldl_insertMissing_of_none b e k h
      simp [fillEnv, this, optOr]

/-! ## Claim theorems -/

/-- C1.  For every filesystem isolation mode, `SetEnvvars` records the
task-visible alloc/local/secrets directory paths as the real host paths
of the task directory exactly when the mode is `none`, and as the
container-canonical paths (`SharedAllocContainerPath`,
`TaskLocalContainerPath`, `TaskSecretsContainerPath`) for every other
mode. -/
theorem setEnvvars_path_isolation (b : Builder) (fsi : FSIsolation) (taskDir : TaskDir)
    (conf : Config) (environ : EnvMap) :
    (SetEnvvars b fsi taskDir conf environ).allocDir =
      Option.some
        (if fsi = FSIsolation.none then taskDir.SharedAllocDir else SharedAllocContainerPath) ∧
    (SetEnvvars b fsi taskDir conf environ).taskLocalDir =
      Option.some
        (if fsi = FSIsolation.none then taskDir.LocalDir else TaskLocalContainerPath) ∧
    (SetEnvvars b fsi taskDir conf environ).secretsDir =
      Option.some
        (if fsi = FSIsolation.none then taskDir.SecretsDir else TaskSecretsContainerPath) := by
  cases fsi <;>
    simp [SetEnvvars, Builder.SetClientTaskRoot, Builder.SetClientSharedAllocDir,
      Builder.SetClientTaskLocalDir, Builder.SetClientTaskSecretsDir, Builder.SetAllocDir,
      Builder.SetTaskLocalDir, Builder.SetSecretsDir, Builder.SetHostEnvvars]

/-- C2.  For every isolation mode other than `image`, `SetEnvvars`
copies the host environment into the builder filtered by the configured
denylist: a name is a key of the inherited host environment iff it is a
key of the host environment and not on the denylist.  When the mode is
`image`, no host environment variable is inherited at all, and the built
mapping consists of the derived path variables only. -/
theorem setEnvvars_host_denylist (fsi : FSIsolation) (taskDir : TaskDir) (conf : Config)
    (environ : EnvMap) :
    (fsi ≠ FSIsolation.image →
      ∀ k : String,
        (∃ v, (k, v) ∈ (SetEnvvars Builder.new fsi taskDir conf environ).hostEnv) ↔
          ((∃ v, (k, v) ∈ environ) ∧ ¬ k ∈ denylistOf conf)) ∧
    (fsi = FSIsolation.image →
      (SetEnvvars Builder.new fsi taskDir conf environ).hostEnv = ([] : EnvMap) ∧
      (SetEnvvars Builder.new fsi taskDir conf environ).Build =
        (SetEnvvars Builder.new fsi taskDir conf environ).pathVars) := by
  cases fsi with
  | none =>
      refine ⟨fun _ k => ?_, fun h => by cases h⟩
      have hh : (SetEnvvars Builder.new FSIsolation.none taskDir conf environ).hostEnv =
          List.filter (fun kv => decide (¬ kv.1 ∈ denylistOf conf)) environ := by
        simp [SetEnvvars, Builder.new, Builder.SetClientTaskRoot, Builder.SetClientSharedAllocDir,
          Builder.SetClientTaskLocalDir, Builder.SetClientTaskSecretsDir, Builder.SetAllocDir,
          Builder.SetTaskLocalDir, Builder.SetSecretsDir, Builder.SetHostEnvvars]
      rw [hh]
      exact mem_filterEnv environ (denylistOf conf) k
  | chroot =>
      refine ⟨fun _ k => ?_, fun h => by cases h⟩
      have hh : (SetEnvvars Builder.new FSIsolation.chroot taskDir conf environ).hostEnv =
          List.filter (fun kv => decide (¬ kv.1 ∈ denylistOf conf)) environ := by
        simp [SetEnvvars, Builder.new, Builder.SetClientTaskRoot, Builder.SetClientSharedAllocDir,
          Builder.SetClientTaskLocalDir, Builder.SetClientTaskSecretsDir, Builder.SetAllocDir,
          Builder.SetTaskLocalDir, Builder.SetSecretsDir, Builder.SetHostEnvvars]
      rw [hh]
      exact mem_filterEnv environ (denylistOf conf) k
  | image =>
      refine ⟨fun h => absurd rfl h, fun _ => ?_⟩
      constructor <;>
        simp [SetEnvvars, Builder.new, Builder.Build, Builder.pathVars,
          Builder.SetClientTaskRoot, Builder.SetClientSharedAllocDir,
          Builder.SetClientTaskLocalDir, Builder.SetClientTaskSecretsDir, Builder.SetAllocDir,
          Builder.SetTaskLocalDir, Builder.SetSecretsDir]

/-- Witness for C2 at concrete inputs: under chroot isolation a
denylisted host variable (`VAULT_TOKEN`) is not inherited, and under
image isolation nothing is inherited. -/
theorem setEnvvars_host_denylist_witness :
    (¬ ∃ v, ("VAULT_TOKEN", v) ∈
      (SetEnvvars Builder.new FSIsolation.chroot (NewTaskDir "/tmp/w2" "t2") DefaultConfig
        [("PATH", "/bin"), ("VAULT_TOKEN", "s.secret")]).hostEnv) ∧
    (SetEnvvars Builder.new FSIsolation.image (NewTaskDir "/tmp/w2" "t2") DefaultConfig
        [("PATH", "/bin"), ("VAULT_TOKEN", "s.secret")]).hostEnv = ([] : EnvMap) :=
  ⟨fun h =>
    (((setEnvvars_host_denylist FSIsolation.chroot (NewTaskDir "/tmp/w2" "t2") DefaultConfig
        [("PATH", "/bin"), ("VAULT_TOKEN", "s.secret")]).1 (by decide) "VAULT_TOKEN").mp h).2
      (by decide),
   ((setEnvvars_host_denylist FSIsolation.image (NewTaskDir "/tmp/w2" "t2") DefaultConfig
        [("PATH", "/bin"), ("VAULT_TOKEN", "s.secret")]).2 rfl).1⟩

/-- C3 (counterexample).  When `Capabilities()` fails, the allocation
directory has already been built, yet `MkAllocDir` returns the error
without destroying anything: the temp dir and alloc dir remain on
disk. -/
theorem mkAllocDir_capsFail_counterexample :
    errStage (MkAllocDir mkWorldCapsFailC3 taskC3 true).res = Option.some MkErr.capabilities ∧
    (MkAllocDir mkWorldCapsFailC3 taskC3 true).st.tempDirExists = true ∧
    (MkAllocDir mkWorldCapsFailC3 taskC3 true).st.allocDirBuilt = true ∧
    Act.allocDestroy ∉ (MkAllocDir mkWorldCapsFailC3 taskC3 true).trace := by
  decide

/-- C3 (amended).  If a setup stage fails before the task is started,
`MkAllocDir` returns the error without running any cleanup: on every
path it performs neither a log-monitor stop nor an
allocation-directory destroy, so the temp dir remains exactly when its
creation succeeded and the allocation directory remains built exactly
when its build succeeded. -/
theorem mkAllocDir_error_performs_no_cleanup (w : MkWorld) (t : TaskConfig) (enableLogs : Bool) :
    Act.logmonStop ∉ (MkAllocDir w t enableLogs).trace ∧
    Act.allocDestroy ∉ (MkAllocDir w t enableLogs).trace ∧
    (MkAllocDir w t enableLogs).st.tempDirExists = !w.tempDirFails ∧
    (MkAllocDir w t enableLogs).st.allocDirBuilt = (!w.tempDirFails && !w.allocBuildFails) := by
  rcases w with ⟨tmp, tdf, abf, cf, fsi, tbf, lsf, goos, uu, he⟩
  cases tdf <;> cases abf <;> cases cf <;> cases tbf <;> cases lsf <;> cases enableLogs <;>
    cases goos <;> simp [MkAllocDir, runAct]

/-- C4 (counterexample).  In a run whose `StopTask` fails, the deferred
teardown attempts `StopTask` but `log.Fatal` then terminates the
process: neither the cleanup closure (log-monitor stop + alloc-dir
destroy) nor `client.Kill()` runs. -/
theorem stopTask_failure_skips_cleanup_counterexample :
    Ev.stopTaskAttempt ∈ deferredTeardown mainWorldStopFailC4 ∧
    Ev.runCleanup ∉ deferredTeardown mainWorldStopFailC4 ∧
    Ev.clientKill ∉ deferredTeardown mainWorldStopFailC4 := by
  decide

/-- C4 (amended).  The deferred teardown always attempts `StopTask`
first; when `StopTask` succeeds, the cleanup closure and `client.Kill`
follow, but when `StopTask` fails, `log.Fatal` exits the process and
the log-monitor stop, allocation-directory destroy and session kill
are all skipped. -/
theorem deferredTeardown_characterization (w : MainWorld) :
    (deferredTeardown w).head? = Option.some Ev.stopTaskAttempt ∧
    (w.stopTaskFails = false →
      deferredTeardown w =
        [Ev.stopTaskAttempt, Ev.sleepAfterStop, Ev.runCleanup, Ev.clientKill]) ∧
    (w.stopTaskFails = true →
      deferredTeardown w = [Ev.stopTaskAttempt, Ev.fatalExit] ∧
      Ev.runCleanup ∉ deferredTeardown w ∧
      Ev.clientKill ∉ deferredTeardown w) := by
  rcases w with ⟨rf, df, sf, mkw, ti, ai, stf, spf⟩
  cases spf <;> simp [deferredTeardown]

/-- Witness for C4's amended theorem at a concrete run whose `StopTask`
fails. -/
theorem deferredTeardown_characterization_witness :
    deferredTeardown mainWorldStopFailC4 = [Ev.stopTaskAttempt, Ev.fatalExit] ∧
    Ev.runCleanup ∉ deferredTeardown mainWorldStopFailC4 ∧
    Ev.clientKill ∉ deferredTeardown mainWorldStopFailC4 :=
  (deferredTeardown_characterization mainWorldStopFailC4).2.2 rfl

/-- C5 (counterexample).  In a run in which every call succeeds, the
task is started and the observation loop is entered, the trace ends at
the loop, and the deferred `StopTask`, cleanup and `client.Kill` never
run: the loop does keep teardown from running. -/
theorem observe_loop_blocks_teardown_counterexample :
    Ev.startTask ∈ mainTrace mainWorldOkC5 ∧
    Ev.enterObserveLoop ∈ mainTrace mainWorldOkC5 ∧
    (mainTrace mainWorldOkC5).getLast? = Option.some Ev.enterObserveLoop ∧
    Ev.stopTaskAttempt ∉ mainTrace mainWorldOkC5 ∧
    Ev.runCleanup ∉ mainTrace mainWorldOkC5 ∧
    Ev.clientKill ∉ mainTrace mainWorldOkC5 := by
  decide

/-- C5 (amended).  The observation loop is an unconditional infinite
loop: its guard is constantly true, and in every world no teardown
event (deferred `StopTask` attempt, cleanup, `client.Kill`) ever
appears in the trace of `main` — once the loop is entered, teardown
never begins. -/
theorem observe_loop_unconditional (w : MainWorld) :
    (∀ n : Nat, obsLoopGuard n = true) ∧
    Ev.stopTaskAttempt ∉ mainTrace w ∧
    Ev.runCleanup ∉ mainTrace w ∧
    Ev.clientKill ∉ mainTrace w := by
  refine ⟨fun n => rfl, ?_⟩
  unfold mainTrace
  split_ifs <;> decide

/-- C6.  Whenever `MkAllocDir` with logging enabled returns a cleanup
closure, that closure stops the log monitor first and destroys the
allocation directory second; after the stop action the log-monitor
session is no longer running, so the directory is never destroyed
while the session is still writing into it. -/
theorem mkAllocDir_cleanup_stop_before_destroy (w : MkWorld) (t : TaskConfig) (acts : List Act)
    (h : cleanupActs (MkAllocDir w t true).res = Option.some acts) :
    acts = [Act.logmonStop, Act.allocDestroy] ∧
    List.indexOf Act.logmonStop acts < List.indexOf Act.allocDestroy acts ∧
    (∀ s : St, (runAct s Act.logmonStop).logmonRunning = false) := by
  rcases w with ⟨tmp, tdf, abf, cf, fsi, tbf, lsf, goos, uu, he⟩
  cases tdf <;> cases abf <;> cases cf <;> cases tbf <;> cases lsf <;> cases goos <;>
    simp [MkAllocDir, cleanupActs] at h <;>
    exact ⟨h.symm, by subst h; decide, fun s => rfl⟩

/-- Witness for C6 at a concrete all-success world. -/
theorem mkAllocDir_cleanup_stop_before_destroy_witness :
    ([Act.logmonStop, Act.allocDestroy] : List Act) = [Act.logmonStop, Act.allocDestroy] ∧
    List.indexOf Act.logmonStop [Act.logmonStop, Act.allocDestroy] <
      List.indexOf Act.allocDestroy [Act.logmonStop, Act.allocDestroy] ∧
    (∀ s : St, (runAct s Act.logmonStop).logmonRunning = false) :=
  mkAllocDir_cleanup_stop_before_destroy mkWorldOkC6 taskC6
    [Act.logmonStop, Act.allocDestroy] (by decide)

/-- C7.  Once the env-building stages of `MkAllocDir` have run, the
task's `Env` is the caller's map filled with the missing keys of the
built task environment: a `nil` caller map is replaced by the full
built map, and for a caller-supplied map every caller value takes
precedence while absent keys resolve to the built value. -/
theorem mkAllocDir_env_fill (w : MkWorld) (t : TaskConfig) (el : Bool)
    (h1 : w.tempDirFails = false) (h2 : w.allocBuildFails = false)
    (h3 : w.capsFail = false) (h4 : w.taskDirBuildFails = false) :
    (MkAllocDir w t el).t.Env = Option.some (fillEnv t.Env (builtTaskEnv w t)) ∧
    (t.Env = Option.none → (MkAllocDir w t el).t.Env = Option.some (builtTaskEnv w t)) ∧
    (∀ (e : EnvMap) (k : String), t.Env = Option.some e →
      lookupKV (fillEnv (Option.some e) (builtTaskEnv w t)) k =
        optOr (lookupKV e k) (lookupKV (builtTaskEnv w t) k)) := by
  rcases w with ⟨tmp, tdf, abf, cf, fsi, tbf, lsf, goos, uu, he⟩
  simp only at h1 h2 h3 h4
  subst h1; subst h2; subst h3; subst h4
  refine ⟨?_, ?_, ?_⟩
  · cases el <;> cases lsf <;> cases goos <;> simp [MkAllocDir, builtTaskEnv]
  · intro hnone
    cases el <;> cases lsf <;> cases goos <;>
      simp [MkAllocDir, builtTaskEnv, hnone, fillEnv]
  · intro e k _
    exact lookupKV_fillEnv_some e _ k

/-- Witness for C7: a caller-supplied partial `Env` is filled from the
built environment. -/
theorem mkAllocDir_env_fill_witness :
    (MkAllocDir mkWorldOkC7 taskC7 true).t.Env =
      Option.some (fillEnv taskC7.Env (builtTaskEnv mkWorldOkC7 taskC7)) :=
  (mkAllocDir_env_fill mkWorldOkC7 taskC7 true rfl rfl rfl rfl).1

/-- C8.  In the harness's main flow, `StartTask` runs only after
`SetConfig` returned successfully: if `SetConfig` fails, `StartTask`
never appears in the run's trace, and whenever `StartTask` appears,
`SetConfig` succeeded and occurs strictly earlier in the trace. -/
theorem main_startTask_after_setConfig (w : MainWorld) :
    (w.setConfigFails = true → Ev.startTask ∉ mainTrace w) ∧
    (Ev.startTask ∈ mainTrace w →
      w.setConfigFails = false ∧
      mainTrace w =
        [Ev.rpcConnect, Ev.dispense, Ev.setConfig, Ev.mkAllocDirOk, Ev.encodeConfig,
          Ev.startTask, Ev.enterObserveLoop] ∧
      List.indexOf Ev.setConfig (mainTrace w) < List.indexOf Ev.startTask (mainTrace w)) := by
  rcases w with ⟨rf, df, sf, mkw, ti, ai, stf, spf⟩
  cases rf <;> cases df <;> cases sf <;> cases stf <;>
    (unfold mainTrace; split_ifs <;> simp_all)

/-- Witness for C8: with a failing `SetConfig`, `StartTask` is never
invoked. -/
theorem main_startTask_after_setConfig_witness :
    Ev.startTask ∉ mainTrace mainWorldSetCfgFailC8 :=
  (main_startTask_after_setConfig mainWorldSetCfgFailC8).1 rfl

/-- C9.  A successful `MkAllocDir` mutates the caller's `TaskConfig` in
place: `AllocDir` becomes the fresh temp dir, `Env` is filled from the
built task environment, and with logging enabled the stdout/stderr
sink paths are FIFO paths under the task log dir (non-Windows) or
named-pipe paths carrying the first 8 characters of a generated uuid
(Windows); `ID`, `Name`, `AllocID` and `Resources` are unchanged, and
with logging disabled the sink paths are unchanged too. -/
theorem mkAllocDir_frame (w : MkWorld) (t : TaskConfig) (el : Bool)
    (h : resIsError (MkAllocDir w t el).res = false) :
    (MkAllocDir w t el).t.ID = t.ID ∧
    (MkAllocDir w t el).t.Name = t.Name ∧
    (MkAllocDir w t el).t.AllocID = t.AllocID ∧
    (MkAllocDir w t el).t.Resources = t.Resources ∧
    (MkAllocDir w t el).t.AllocDir = w.tmpdir ∧
    (MkAllocDir w t el).t.Env = Option.some (fillEnv t.Env (builtTaskEnv w t)) ∧
    (el = false →
      (MkAllocDir w t el).t.StdoutPath = t.StdoutPath ∧
      (MkAllocDir w t el).t.StderrPath = t.StderrPath) ∧
    (el = true → w.goos = GOOS.windows →
      (MkAllocDir w t el).t.StdoutPath =
        "//./pipe/" ++ t.Name ++ "-" ++ w.uuidVal.take 8 ++ ".stdout" ∧
      (MkAllocDir w t el).t.StderrPath =
        "//./pipe/" ++ t.Name ++ "-" ++ w.uuidVal.take 8 ++ ".stderr") ∧
    (el = true → w.goos = GOOS.linux →
      (MkAllocDir w t el).t.StdoutPath =
        (NewTaskDir w.tmpdir t.Name).LogDir ++ "/." ++ t.Name ++ ".stdout.fifo" ∧
      (MkAllocDir w t el).t.StderrPath =
        (NewTaskDir w.tmpdir t.Name).LogDir ++ "/." ++ t.Name ++ ".stderr.fifo") := by
  rcases w with ⟨tmp, tdf, abf, cf, fsi, tbf, lsf, goos, uu, he⟩
  cases tdf <;> cases abf <;> cases cf <;> cases tbf <;> cases lsf <;> cases el <;>
    cases goos <;> simp_all [MkAllocDir, resIsError, builtTaskEnv]

/-- Witness for C9 at a concrete all-success world: identity fields are
preserved and `AllocDir` is the fresh temp dir. -/
theorem mkAllocDir_frame_witness :
    (MkAllocDir mkWorldOkC9 taskC9 true).t.ID = taskC9.ID ∧
    (MkAllocDir mkWorldOkC9 taskC9 true).t.Resources = taskC9.Resources ∧
    (MkAllocDir mkWorldOkC9 taskC9 true).t.AllocDir = mkWorldOkC9.tmpdir := by
  have h := mkAllocDir_frame mkWorldOkC9 taskC9 true (by decide)
  exact ⟨h.1, h.2.2.2.1, h.2.2.2.2.1⟩

/-- C10.  Every log-monitor session `MkAllocDir` starts uses the fixed
rotation limits MaxFiles = 10 and MaxFileSizeMB = 10 and the file base
names `<taskName>.stdout` / `<taskName>.stderr`, whatever the world and
the caller's task config: the interface offers no way to supply other
values. -/
theorem mkAllocDir_logmon_fixed_rotation (w : MkWorld) (t : TaskConfig) (cfg : LogConfig)
    (h : (MkAllocDir w t true).logCfg = Option.some cfg) :
    cfg.MaxFiles = 10 ∧
    cfg.MaxFileSizeMB = 10 ∧
    cfg.StdoutLogFile = t.Name ++ ".stdout" ∧
    cfg.StderrLogFile = t.Name ++ ".stderr" ∧
    cfg.LogDir = (NewTaskDir w.tmpdir t.Name).LogDir := by
  rcases w with ⟨tmp, tdf, abf, cf, fsi, tbf, lsf, goos, uu, he⟩
  cases tdf <;> cases abf <;> cases cf <;> cases tbf <;> cases lsf <;> cases goos <;>
    simp [MkAllocDir] at h <;> simp [← h]

/-- Witness for C10 at a concrete all-success world. -/
theorem mkAllocDir_logmon_fixed_rotation_witness :
    ({ LogDir := "/tmp/nomad_driver_harness-5/alloc/logs",
       StdoutLogFile := "nc-demo.stdout",
       StderrLogFile := "nc-demo.stderr",
       StdoutFifo := "/tmp/nomad_driver_harness-5/alloc/logs/.nc-demo.stdout.fifo",
       StderrFifo := "/tmp/nomad_driver_harness-5/alloc/logs/.nc-demo.stderr.fifo",
       MaxFiles := 10, MaxFileSizeMB := 10 } : LogConfig).MaxFiles = 10 ∧
    ({ LogDir := "/tmp/nomad_driver_harness-5/alloc/logs",
       StdoutLogFile := "nc-demo.stdout",
       StderrLogFile := "nc-demo.stderr",
       StdoutFifo := "/tmp/nomad_driver_harness-5/alloc/logs/.nc-demo.stdout.fifo",
       StderrFifo := "/tmp/nomad_driver_harness-5/alloc/logs/.nc-demo.stderr.fifo",
       MaxFiles := 10, MaxFileSizeMB := 10 } : LogConfig).MaxFileSizeMB = 10 ∧
    ({ LogDir := "/tmp/nomad_driver_harness-5/alloc/logs",
       StdoutLogFile := "nc-demo.stdout",
       StderrLogFile := "nc-demo.stderr",
       StdoutFifo := "/tmp/nomad_driver_harness-5/alloc/logs/.nc-demo.stdout.fifo",
       StderrFifo := "/tmp/nomad_driver_harness-5/alloc/logs/.nc-demo.stderr.fifo",
       MaxFiles := 10, MaxFileSizeMB := 10 } : LogConfig).StdoutLogFile =
      taskC10.Name ++ ".stdout" ∧
    ({ LogDir := "/tmp/nomad_driver_harness-5/alloc/logs",
       StdoutLogFile := "nc-demo.stdout",
       StderrLogFile := "nc-demo.stderr",
       StdoutFifo := "/tmp/nomad_driver_harness-5/alloc/logs/.nc-demo.stdout.fifo",
       StderrFifo := "/tmp/nomad_driver_harness-5/alloc/logs/.nc-demo.stderr.fifo",
       MaxFiles := 10, MaxFileSizeMB := 10 } : LogConfig).StderrLogFile =
      taskC10.Name ++ ".stderr" ∧
    ({ LogDir := "/tmp/nomad_driver_harness-5/alloc/logs",
       StdoutLogFile := "nc-demo.stdout",
       StderrLogFile := "nc-demo.stderr",
       StdoutFifo := "/tmp/nomad_driver_harness-5/alloc/logs/.nc-demo.stdout.fifo",
       StderrFifo := "/tmp/nomad_driver_harness-5/alloc/logs/.nc-demo.stderr.fifo",
       MaxFiles := 10, MaxFileSizeMB := 10 } : LogConfig).LogDir =
      (NewTaskDir mkWorldOkC10.tmpdir taskC10.Name).LogDir :=
  mkAllocDir_logmon_fixed_rotation mkWorldOkC10 taskC10
    { LogDir := "/tmp/nomad_driver_harness-5/alloc/logs",
      StdoutLogFile := "nc-demo.stdout",
      StderrLogFile := "nc-demo.stderr",
      StdoutFifo := "/tmp/nomad_driver_harness-5/alloc/logs/.nc-demo.stdout.fifo",
      StderrFifo := "/tmp/nomad_driver_harness-5/alloc/logs/.nc-demo.stderr.fifo",
      MaxFiles := 10, MaxFileSizeMB := 10 } (by decide)
